import Mathlib

/-!
Verification of the squadv1 gaming-lounge reservation backend
(`src/backend/app.py`) against its natural-language specification.

The document store (Firestore) is modelled as explicit state: a list of
booking documents keyed by identifier, the singleton `setup_availability`
and `pricing` documents (absent when `none`), and the user collection.
Handlers become pure functions that take the store and return the updated
store together with either the successful payload or the HTTP error pair
(status code, message) that the Python handler would return.
Timestamp fields (`created_at`, `updated_at`) are omitted: no decision in
the code reads them.
-/

set_option autoImplicit false

namespace Squad

/-- A booking document, with the fields written by `create_booking` in
`app.py` (timestamps omitted). -/
structure Booking where
  user_id : String
  name : String
  email : String
  phone : String
  setup : String
  players : Int
  date : String
  time : String
  duration : Int
  price : Int
  status : String
  deriving DecidableEq, Repr

/-- A user document as written by `user_register` in `app.py`
(timestamp omitted). -/
structure User where
  email : String
  password : String
  name : String
  phone : String
  deriving DecidableEq, Repr

/-- The document store: the `bookings` collection (id, document), the
singleton `setup_availability` and `pricing` documents (a `none` models an
absent document), and the `users` collection. -/
structure Store where
  bookings : List (String × Booking)
  setup_availability : Option (List (String × Bool))
  pricing : Option (List (String × Int))
  users : List (String × User)
  deriving DecidableEq, Repr

/-- Python `f"{hour:02d}:00"`. -/
def hourLabel (h : Nat) : String :=
  (if h < 10 then "0" ++ toString h else toString h) ++ ":00"

/-- The canonical daily slots, `[f"{hour:02d}:00" for hour in range(10, 24)]`
in `get_available_time_slots`. -/
def all_slots : List String :=
  (List.range 14).map (fun i => hourLabel (10 + i))

/-- Default setup-availability document used when the singleton is absent
(`app.py` lines 182-187). -/
def defaultSetups : List (String × Bool) :=
  [("ps5_setup_1", true), ("ps5_setup_2", true),
   ("racing_simulator", true), ("pool_table", true)]

/-- Default pricing document used when the singleton is absent
(`app.py` lines 226-232). -/
def default_pricing : List (String × Int) :=
  [("squad", 400), ("individual", 120), ("ps5_specific", 400),
   ("racing", 150), ("pool", 400)]

/-- One step of the tally loop in `get_available_time_slots` lines 191-200,
restricted to the per-slot `total` counters: a booking whose status is not
`cancelled` and whose `time` is a key of `slot_bookings` (that is, one of
`all_slots`) bumps the counter of its own slot. -/
def bumpTotals (m : String → Nat) (b : Booking) : String → Nat :=
  if b.status != "cancelled" && all_slots.contains b.time then
    fun s => if s == b.time then m s + 1 else m s
  else m

/-- The `slot_bookings[slot]['total']` counters after the tally loop, as a
function of the slot label. -/
def slotTotals (bs : List Booking) : String → Nat :=
  bs.foldl bumpTotals (fun _ => 0)

/-- One step of the per-slot, per-setup tally (`slot_bookings[slot]['setups']`
in lines 198-200): a dict from setup identifier to count, as an
association list. -/
def addSetup (acc : List (String × Nat)) (s : String) : List (String × Nat) :=
  match acc.lookup s with
  | none => acc ++ [(s, 1)]
  | some _ => acc.map (fun p => if p.1 = s then (p.1, p.2 + 1) else p)

/-- The `slot_bookings[slot]['setups']` dict for one slot: setup identifiers
of the non-cancelled bookings in that slot, tallied. -/
def setupCounts (bs : List Booking) (slot : String) : List (String × Nat) :=
  ((bs.filter (fun b =>
      b.status != "cancelled" && all_slots.contains b.time && b.time == slot)).map
    Booking.setup).foldl addSetup []

/-- The inner per-setup capacity loop of `get_available_time_slots`
(lines 212-216).  Its body consists solely of `continue` statements, so each
iteration changes nothing; the loop is embedded as a fold over the per-setup
counts whose accumulator is `Unit`, preserving the control flow of the two
`continue` conditions. -/
def setupLoop (setups : List (String × Nat)) : Unit :=
  setups.foldl
    (fun u p =>
      if p.1.startsWith "ps5" ∧ 2 ≤ p.2 then u
      else if (p.1 = "racing_simulator" ∨ p.1 = "pool_table") ∧ 1 ≤ p.2 then u
      else u)
    ()

/-- Embedding of `get_available_time_slots(date)` (`app.py` lines 170-219).  The Firestore
query `where('date', '==', date)` becomes a filter of the bookings
collection; the setup-availability document defaults when absent; a slot is
appended when its total is strictly below the number of enabled setups,
after the (effect-free) inner per-setup loop runs. -/
def get_available_time_slots (st : Store) (date : String) : List String :=
  let bookings := (st.bookings.map Prod.snd).filter (fun b => b.date == date)
  let available_setups := st.setup_availability.getD defaultSetups
  let slot_bookings := slotTotals bookings
  let total_setups := (available_setups.filter (fun p => p.2)).length
  all_slots.foldl
    (fun acc slot =>
      if slot_bookings slot < total_setups then
        let _u := setupLoop (setupCounts bookings slot)
        acc ++ [slot]
      else acc)
    []

/-- Modelled from the spec words for the refinement claim: the simplified
availability resolver that omits the inner per-setup capacity loop entirely
and keeps only the total-count rule. -/
def get_available_time_slots_simple (st : Store) (date : String) : List String :=
  let bookings := (st.bookings.map Prod.snd).filter (fun b => b.date == date)
  let available_setups := st.setup_availability.getD defaultSetups
  let slot_bookings := slotTotals bookings
  let total_setups := (available_setups.filter (fun p => p.2)).length
  all_slots.foldl
    (fun acc slot =>
      if slot_bookings slot < total_setups then acc ++ [slot] else acc)
    []

/-- Embedding of `calculate_price(setup_type, duration, players)` (`app.py` lines 221-237).
The pricing document defaults when absent; indexing `base_prices[setup_type]`
raises `KeyError` when the key is missing, modelled as `none`. -/
def calculate_price (pricing : Option (List (String × Int)))
    (setup_type : String) (duration players : Int) : Option Int :=
  let base_prices := pricing.getD default_pricing
  match base_prices.lookup setup_type with
  | none => none
  | some rate =>
    if setup_type = "individual" then some (rate * players * duration)
    else some (rate * duration)

/-- Decimal digits accumulated into a natural number; any non-digit
character fails the parse. -/
def parseNatDigits : List Char → Nat → Option Nat
  | [], acc => some acc
  | c :: cs, acc =>
    if 48 ≤ c.toNat ∧ c.toNat ≤ 57 then
      parseNatDigits cs (acc * 10 + (c.toNat - 48))
    else none

/-- Python `int(...)` on a piece of text: an optional leading minus sign
followed by at least one decimal digit; anything else raises `ValueError`,
modelled as `none`. -/
def parseIntChars : List Char → Option Int
  | [] => none
  | c :: cs =>
    if c = '-' then
      match cs with
      | [] => none
      | _ :: _ => (parseNatDigits cs 0).map (fun n => -(n : Int))
    else (parseNatDigits (c :: cs) 0).map (fun n => (n : Int))

/-- Python `int(data['time'].split(':')[0])`: the text before the first
colon, parsed as an integer; `none` models the `ValueError` path. -/
def parseHour (t : String) : Option Int :=
  parseIntChars (t.toList.takeWhile (fun c => c ≠ ':'))

/-- Replace the booking stored under `id`. -/
def setBooking (st : Store) (id : String) (b : Booking) : Store :=
  { st with bookings := st.bookings.map (fun p => if p.1 = id then (id, b) else p) }

/-- The request body of a booking update: the keys of `data` the handler
inspects (`status`, `date`, `time`); absent keys are `none`. -/
structure UpdateData where
  status : Option String
  date : Option String
  time : Option String
  deriving DecidableEq, Repr

/-- Shared body of the two update handlers after the booking has been
fetched (`app.py` lines 309-345 and 655-691): the cancellation branch fires
when `data['status'] == 'cancelled'`; else, with both `date` and `time`
present, the hour is parsed and range-checked, the resolver is consulted on
the new date, and the booking becomes `rescheduled`. -/
def updateBookingBody (st : Store) (booking_id : String) (b : Booking)
    (data : UpdateData) : Store × Except (Nat × String) Booking :=
  if data.status = some "cancelled" then
    let updated := { b with status := "cancelled" }
    (setBooking st booking_id updated, .ok updated)
  else
    match data.date, data.time with
    | some d, some t =>
      match parseHour t with
      | none => (st, .error (400, "Invalid time format"))
      | some hour =>
        if hour < 10 ∨ hour > 23 then
          (st, .error (400, "Invalid time slot. Hours must be between 10 AM and 11 PM"))
        else if t ∈ get_available_time_slots st d then
          let updated := { b with date := d, time := t, status := "rescheduled" }
          (setBooking st booking_id updated, .ok updated)
        else
          (st, .error (400, "Selected time slot is not available"))
    | _, _ => (st, .error (400, "Invalid update request"))

/-- Embedding of `update_booking` (`app.py` lines 296-348), the admin update handler. -/
def update_booking (st : Store) (booking_id : String) (data : UpdateData) :
    Store × Except (Nat × String) Booking :=
  match st.bookings.lookup booking_id with
  | none => (st, .error (404, "Booking not found"))
  | some b => updateBookingBody st booking_id b data

/-- Embedding of `update_user_booking` (`app.py` lines 638-694), the user update handler:
identical to the admin one after an ownership check. -/
def update_user_booking (st : Store) (user_id booking_id : String)
    (data : UpdateData) : Store × Except (Nat × String) Booking :=
  match st.bookings.lookup booking_id with
  | none => (st, .error (404, "Booking not found"))
  | some b =>
    if b.user_id ≠ user_id then (st, .error (403, "Unauthorized access"))
    else updateBookingBody st booking_id b data

/-- Embedding of `check_booking` (`app.py` lines 391-414): public lookup by id and email.
Absent query parameters and empty strings are both falsy in Python, so both
are modelled by the empty string. -/
def check_booking (st : Store) (booking_id email : String) :
    Except (Nat × String) (String × Booking) :=
  if booking_id = "" ∨ email = "" then
    .error (400, "Booking ID and email are required")
  else
    match st.bookings.lookup booking_id with
    | none => .error (404, "Booking not found")
    | some b =>
      if b.email ≠ email then .error (403, "Invalid credentials")
      else .ok (booking_id, b)

/-- The request body of booking creation; the `players` and `duration`
values are modelled after the `int(...)` casts. -/
structure CreateData where
  setup : Option String
  players : Option Int
  date : Option String
  time : Option String
  duration : Option Int
  deriving DecidableEq, Repr

/-- Embedding of `create_booking` (`app.py` lines 240-294).  The five required fields are
checked in order; the user document is fetched but dereferenced only when
the booking dict is built (so a missing profile surfaces as a 500 only
after the availability and price steps, as in the source); the availability
resolver gates the slot; `calculate_price` may raise `KeyError` (500); on
success the new document is appended under the generated id `newId`. -/
def create_booking (st : Store) (user_id : String) (data : CreateData)
    (newId : String) : Store × Except (Nat × String) (String × Booking) :=
  match data.setup with
  | none => (st, .error (400, "Missing required field: setup"))
  | some setup =>
  match data.players with
  | none => (st, .error (400, "Missing required field: players"))
  | some players =>
  match data.date with
  | none => (st, .error (400, "Missing required field: date"))
  | some date =>
  match data.time with
  | none => (st, .error (400, "Missing required field: time"))
  | some time =>
  match data.duration with
  | none => (st, .error (400, "Missing required field: duration"))
  | some duration =>
  let user_data := st.users.lookup user_id
  if time ∈ get_available_time_slots st date then
    match calculate_price st.pricing setup duration players with
    | none => (st, .error (500, "KeyError"))
    | some price =>
      match user_data with
      | none => (st, .error (500, "TypeError: NoneType is not subscriptable"))
      | some u =>
        let booking : Booking :=
          { user_id := user_id, name := u.name, email := u.email,
            phone := u.phone, setup := setup, players := players,
            date := date, time := time, duration := duration,
            price := price, status := "confirmed" }
        ({ st with bookings := st.bookings ++ [(newId, booking)] },
          .ok (newId, booking))
  else
    (st, .error (400, "Selected time slot is not available"))

/-- Number of enabled setups: `total_setups` in `get_available_time_slots`
(line 204), computed from the effective setup-availability document. -/
def totalSetups (st : Store) : Nat :=
  ((st.setup_availability.getD defaultSetups).filter (fun p => p.2)).length

/-- Number of non-cancelled bookings of the store whose `date` is `date` and
whose `time` is `slot`: the tally the resolver compares against
`total_setups`. -/
def slotCount (st : Store) (date slot : String) : Nat :=
  ((st.bookings.map Prod.snd).filter
    (fun b => b.date == date && b.status != "cancelled" && b.time == slot)).length

/-- Rewrite every booking duration through `f`, leaving all other fields and
documents unchanged. -/
def mapDurations (f : Int → Int) (st : Store) : Store :=
  { st with bookings :=
      st.bookings.map (fun p => (p.1, { p.2 with duration := f p.2.duration })) }

/-- Append one booking document under the identifier `id`. -/
def addBooking (st : Store) (id : String) (b : Booking) : Store :=
  { st with bookings := st.bookings ++ [(id, b)] }

/-- A concrete cancelled booking used in the examples below. -/
def exCancelled : Booking :=
  { user_id := "u1", name := "Ann", email := "ann@example.com",
    phone := "555", setup := "pool_table", players := 2,
    date := "2025-06-01", time := "10:00", duration := 1, price := 400,
    status := "cancelled" }

/-- A concrete confirmed booking used in the examples below. -/
def exConfirmed : Booking :=
  { user_id := "u1", name := "Ann", email := "ann@example.com",
    phone := "555", setup := "ps5_setup_1", players := 2,
    date := "2025-06-01", time := "12:00", duration := 2, price := 800,
    status := "confirmed" }

/-- A store holding one cancelled booking, with all singleton documents
absent (so the defaults apply). -/
def exStoreCancelled : Store :=
  { bookings := [("b1", exCancelled)], setup_availability := none,
    pricing := none, users := [] }

/-- A store holding one confirmed booking owned by user `u1`, who is also
registered in the user collection. -/
def exStoreConfirmed : Store :=
  { bookings := [("b1", exConfirmed)], setup_availability := none,
    pricing := none,
    users := [("u1", { email := "ann@example.com", password := "h",
                       name := "Ann", phone := "555" })] }

/-- An update request carrying only a new date and time (a reschedule). -/
def exReschedule : UpdateData :=
  { status := none, date := some "2025-06-01", time := some "11:00" }

/-- A reschedule request whose hour component is out of range. -/
def exRescheduleEarly : UpdateData :=
  { status := none, date := some "2025-06-02", time := some "09:00" }

/-- A cancellation request. -/
def exCancelReq : UpdateData :=
  { status := some "cancelled", date := none, time := none }

/-- A booking whose time is not one of the 14 canonical slot labels. -/
def exBadTimeBooking : Booking :=
  { user_id := "u2", name := "Bob", email := "bob@example.com",
    phone := "556", setup := "racing_simulator", players := 1,
    date := "2025-06-01", time := "09:30", duration := 1, price := 150,
    status := "confirmed" }

/-- A complete creation request whose time is not a canonical slot. -/
def exCreateBadTime : CreateData :=
  { setup := some "squad", players := some 3, date := some "2025-06-01",
    time := some "09:00", duration := some 2 }

end Squad

namespace Squad

theorem foldl_avail (c : String → Nat) (n : Nat) :
    ∀ (l acc : List String),
      l.foldl (fun a s => if c s < n then a ++ [s] else a) acc
        = acc ++ l.filter (fun s => decide (c s < n))
  | [], acc => by simp
  | s :: l, acc => by
    by_cases h : c s < n
    · simp only [List.foldl_cons, if_pos h, List.filter_cons, decide_eq_true h,
        foldl_avail c n l (acc ++ [s])]
      simp
    · simp only [List.foldl_cons, if_neg h, List.filter_cons,
        decide_eq_false h, foldl_avail c n l acc]
      simp

theorem bumpTotals_apply (m : String → Nat) (b : Booking) (s : String) :
    bumpTotals m b s = m s +
      (if b.status != "cancelled" && all_slots.contains b.time && b.time == s
        then 1 else 0) := by
  unfold bumpTotals
  by_cases h1 : (b.status != "cancelled" && all_slots.contains b.time) = true
  · obtain ⟨hx, hy⟩ := Bool.and_eq_true_iff.mp h1
    rw [if_pos h1]
    by_cases h2 : b.time = s
    · subst h2
      rw [if_pos (beq_self_eq_true _), hx, hy, beq_self_eq_true]
      rfl
    · have ha : (s == b.time) = false := by
        rw [beq_eq_false_iff_ne]
        exact fun e => h2 e.symm
      have hb : (b.time == s) = false := by
        rw [beq_eq_false_iff_ne]
        exact h2
      simp [ha, hb]
  · rw [if_neg h1]
    have h1f : (b.status != "cancelled" && all_slots.contains b.time) = false := by
      revert h1
      cases b.status != "cancelled" && all_slots.contains b.time <;> simp
    have hcf :
        (b.status != "cancelled" && all_slots.contains b.time && b.time == s) = false := by
      revert h1f
      cases b.status != "cancelled" <;> cases all_slots.contains b.time <;> simp
    rw [hcf]
    rfl

theorem slotTotals_foldl (bs : List Booking) (m : String → Nat) (s : String) :
    bs.foldl bumpTotals m s = m s +
      (bs.filter (fun b =>
        b.status != "cancelled" && all_slots.contains b.time && b.time == s)).length := by
  induction bs generalizing m with
  | nil => simp
  | cons b bs ih =>
    rw [List.foldl_cons, ih, List.filter_cons, bumpTotals_apply]
    by_cases h : (b.status != "cancelled" && all_slots.contains b.time && b.time == s) = true
    · rw [if_pos h, if_pos h, List.length_cons]
      omega
    · rw [if_neg h, if_neg h, Nat.add_zero]

theorem slotTotals_eq_slotCount (st : Store) (date s : String) (hs : s ∈ all_slots) :
    slotTotals ((st.bookings.map Prod.snd).filter (fun b => b.date == date)) s
      = slotCount st date s := by
  unfold slotTotals slotCount
  rw [slotTotals_foldl, Nat.zero_add, List.filter_filter]
  apply congrArg List.length
  apply List.filter_congr
  intro b _
  have hcont : all_slots.contains s = true := by
    simp [List.contains, List.elem_iff, hs]
  by_cases h2 : b.time = s
  · have hb : (b.time == s) = true := by rw [beq_iff_eq]; exact h2
    rw [hb, Bool.and_true]
    rw [h2, hcont, Bool.and_true]
    cases hst : b.status != "cancelled" <;> cases hd : b.date == date <;> simp
  · have hb : (b.time == s) = false := by rw [beq_eq_false_iff_ne]; exact h2
    simp [hb]

theorem resolver_eq_filter (st : Store) (date : String) :
    get_available_time_slots st date
      = all_slots.filter (fun s => decide (slotCount st date s < totalSetups st)) := by
  have h0 : get_available_time_slots st date
      = get_available_time_slots_simple st date := rfl
  rw [h0]
  unfold get_available_time_slots_simple
  rw [foldl_avail, List.nil_append]
  apply List.filter_congr
  intro s hs
  rw [slotTotals_eq_slotCount st date s hs]
  rfl

/-- C2: for every date and every store state, the availability resolver
returns exactly what the simplified resolver without the inner per-setup
capacity loop returns — the `ps5` capacity-2 and
`racing_simulator`/`pool_table` capacity-1 checks never remove a slot,
because the loop body consists only of `continue` statements and the slot
is appended after the loop regardless. -/
theorem resolver_eq_simplified (st : Store) (date : String) :
    get_available_time_slots st date = get_available_time_slots_simple st date :=
  rfl

/-- C3: a canonical slot is in `resolve(date)` exactly when the number of
non-cancelled bookings of that date in that slot is strictly below the
count of enabled setups; at equality the slot is excluded.  Cancelled
bookings never contribute: `slotCount` counts only bookings whose status
differs from `cancelled`, and `resolver_eq_filter` shows the resolver
consults exactly that count. -/
theorem slot_available_iff_count_lt (st : Store) (date s : String)
    (hs : s ∈ all_slots) :
    (s ∈ get_available_time_slots st date ↔
      slotCount st date s < totalSetups st) ∧
    (slotCount st date s = totalSetups st →
      s ∉ get_available_time_slots st date) := by
  rw [resolver_eq_filter]
  constructor
  · rw [List.mem_filter]
    constructor
    · rintro ⟨-, h⟩
      exact of_decide_eq_true h
    · intro h
      exact ⟨hs, decide_eq_true h⟩
  · intro heq hmem
    rw [List.mem_filter] at hmem
    have := of_decide_eq_true hmem.2
    omega

theorem slot_available_iff_count_lt_witness :
    (("12:00" ∈ get_available_time_slots exStoreConfirmed "2025-06-01" ↔
        slotCount exStoreConfirmed "2025-06-01" "12:00"
          < totalSetups exStoreConfirmed) ∧
      (slotCount exStoreConfirmed "2025-06-01" "12:00"
          = totalSetups exStoreConfirmed →
        "12:00" ∉ get_available_time_slots exStoreConfirmed "2025-06-01")) :=
  slot_available_iff_count_lt exStoreConfirmed "2025-06-01" "12:00" (by decide)

/-- C8: `resolve(date)` is always a subsequence of the 14 canonical slot
labels (listed explicitly, in ascending hour order), and when the effective
setup inventory is the default one with all four setups enabled and the
date has zero non-cancelled bookings, the resolver returns all 14 slots. -/
theorem resolver_sublist_and_full :
    all_slots = ["10:00", "11:00", "12:00", "13:00", "14:00", "15:00",
      "16:00", "17:00", "18:00", "19:00", "20:00", "21:00", "22:00",
      "23:00"] ∧
    (∀ st date, List.Sublist (get_available_time_slots st date) all_slots) ∧
    (∀ st date, st.setup_availability.getD defaultSetups = defaultSetups →
      ((st.bookings.map Prod.snd).filter
          (fun b => b.date == date && b.status != "cancelled")).length = 0 →
      get_available_time_slots st date = all_slots) := by
  refine ⟨by decide, fun st date => ?_, fun st date hset hzero => ?_⟩
  · rw [resolver_eq_filter]
    exact List.filter_sublist _
  · rw [resolver_eq_filter]
    have hall := List.filter_eq_nil_iff.mp (List.length_eq_zero.mp hzero)
    have hcount : ∀ s, slotCount st date s = 0 := by
      intro s
      unfold slotCount
      rw [List.length_eq_zero, List.filter_eq_nil_iff]
      intro b hb hcond
      obtain ⟨hd, -⟩ := Bool.and_eq_true_iff.mp hcond
      exact hall b hb hd
    have htot : totalSetups st = 4 := by
      unfold totalSetups
      rw [hset]
      rfl
    apply List.filter_eq_self.mpr
    intro s hs
    rw [hcount s, htot]
    rfl

theorem resolver_sublist_and_full_witness :
    get_available_time_slots
        { bookings := [], setup_availability := none, pricing := none,
          users := [] } "2025-06-01" = all_slots :=
  resolver_sublist_and_full.2.2
    { bookings := [], setup_availability := none, pricing := none,
      users := [] } "2025-06-01" rfl rfl

/-- C9: the pricing calculator returns `none` (the `KeyError` that the
route maps to a 500, named `UnknownSetupType` by the spec) exactly when the
setup type is not a key of the effective rate table; any setup type present
in the table yields an integer amount. -/
theorem calculate_price_none_iff_unknown
    (pricing : Option (List (String × Int))) (setup_type : String)
    (duration players : Int) :
    calculate_price pricing setup_type duration players = none ↔
      (pricing.getD default_pricing).lookup setup_type = none := by
  simp only [calculate_price]
  cases h : (pricing.getD default_pricing).lookup setup_type with
  | none => simp
  | some rate =>
    simp only
    constructor
    · intro hc
      split at hc <;> simp_all
    · intro hc
      simp_all

/-- C4: for any setup type present in the effective rate table,
`individual` multiplies the base rate by player count and duration while
every other type multiplies by duration only; with the default rates,
`price("individual", 2, 3) = 720` and `price("squad", 2, p) = 800` for
every `p`. -/
theorem calculate_price_formula :
    (∀ (pricing : Option (List (String × Int))) (setup_type : String)
        (duration players rate : Int),
      (pricing.getD default_pricing).lookup setup_type = some rate →
      calculate_price pricing setup_type duration players =
        some (if setup_type = "individual" then rate * players * duration
              else rate * duration)) ∧
    calculate_price none "individual" 2 3 = some 720 ∧
    (∀ players : Int, calculate_price none "squad" 2 players = some 800) := by
  refine ⟨?_, rfl, fun players => rfl⟩
  intro pricing s d p rate h
  simp only [calculate_price, h]
  split <;> rfl

theorem calculate_price_formula_witness :
    calculate_price none "pool" 5 7 =
      some (if "pool" = "individual" then 400 * 7 * 5 else 400 * 5) :=
  calculate_price_formula.1 none "pool" 5 7 400 rfl

/-- C10 (implicit): booking duration has no effect on availability —
rewriting every duration leaves the resolver output unchanged; a newly
added booking raises the tally of exactly the slot equal to its `time`
field (by one when it is non-cancelled and on the queried date, else not
at all); and a booking whose `time` is not a canonical label changes no
resolver output. -/
theorem booking_counts_single_slot :
    (∀ st date f, get_available_time_slots (mapDurations f st) date
        = get_available_time_slots st date) ∧
    (∀ st date id b s,
      slotCount (addBooking st id b) date s =
        slotCount st date s +
          (if b.date = date ∧ b.status ≠ "cancelled" ∧ b.time = s
            then 1 else 0)) ∧
    (∀ st date id b, b.time ∉ all_slots →
      get_available_time_slots (addBooking st id b) date
        = get_available_time_slots st date) := by
  have hcount : ∀ st date id b s,
      slotCount (addBooking st id b) date s =
        slotCount st date s +
          (if b.date = date ∧ b.status ≠ "cancelled" ∧ b.time = s
            then 1 else 0) := by
    intro st date id b s
    unfold slotCount addBooking
    simp only [List.map_append, List.filter_append, List.length_append]
    congr 1
    by_cases hb : b.date = date ∧ b.status ≠ "cancelled" ∧ b.time = s
    · obtain ⟨h1, h2, h3⟩ := hb
      have hc : (b.date == date && b.status != "cancelled" && b.time == s)
          = true := by
        simp [h1, h2, h3]
      simp only [List.map_cons, List.map_nil, List.filter_cons, hc,
        if_pos, List.filter_nil, List.length_cons, List.length_nil]
      rw [if_pos ⟨h1, h2, h3⟩]
    · have hc : (b.date == date && b.status != "cancelled" && b.time == s)
          = false := by
        rw [Bool.eq_false_iff]
        intro hT
        obtain ⟨hdst, htm⟩ := Bool.and_eq_true_iff.mp hT
        obtain ⟨hdd, hst⟩ := Bool.and_eq_true_iff.mp hdst
        exact hb ⟨beq_iff_eq.mp hdd, bne_iff_ne.mp hst, beq_iff_eq.mp htm⟩
      simp only [List.map_cons, List.map_nil, List.filter_cons, hc,
        List.filter_nil, List.length_nil]
      rw [if_neg hb]
      rfl
  have hdur : ∀ st date f s,
      slotCount (mapDurations f st) date s = slotCount st date s := by
    intro st date f s
    unfold slotCount mapDurations
    simp only [List.map_map]
    rw [List.filter_map, List.filter_map, List.length_map, List.length_map]
    apply congrArg List.length
    apply List.filter_congr
    intro pr _
    rfl
  refine ⟨fun st date f => ?_, hcount, fun st date id b hb => ?_⟩
  · rw [resolver_eq_filter, resolver_eq_filter]
    apply List.filter_congr
    intro s hs
    rw [hdur]
    rfl
  · rw [resolver_eq_filter, resolver_eq_filter]
    apply List.filter_congr
    intro s hs
    rw [hcount]
    have hno : ¬(b.date = date ∧ b.status ≠ "cancelled" ∧ b.time = s) := by
      rintro ⟨-, -, h3⟩
      exact hb (h3 ▸ hs)
    rw [if_neg hno, Nat.add_zero]
    rfl

theorem booking_counts_single_slot_witness :
    get_available_time_slots
        (addBooking exStoreConfirmed "b9" exBadTimeBooking) "2025-06-01"
      = get_available_time_slots exStoreConfirmed "2025-06-01" :=
  booking_counts_single_slot.2.2 exStoreConfirmed "2025-06-01" "b9"
    exBadTimeBooking (by decide)

theorem updateBookingBody_ok_status (st : Store) (id : String) (b : Booking)
    (data : UpdateData) (st2 : Store) (b2 : Booking)
    (h : updateBookingBody st id b data = (st2, Except.ok b2)) :
    b2.status = "cancelled" ∨ b2.status = "rescheduled" := by
  unfold updateBookingBody at h
  by_cases hc : data.status = some "cancelled"
  · rw [if_pos hc] at h
    injection h with h1 h2
    injection h2 with h3
    left
    rw [← h3]
  · rw [if_neg hc] at h
    split at h
    · split at h
      · simp at h
      · split at h
        · simp at h
        · split at h
          · injection h with h1 h2
            injection h2 with h3
            right
            rw [← h3]
          · simp at h
    · simp at h

/-- C1 (amended): every successful lifecycle update writes status
`cancelled` (cancellation branch) or `rescheduled` (reschedule branch), so
`confirmed → {cancelled, rescheduled}` and
`rescheduled → {cancelled, rescheduled}` are the only transitions out of
those states; but neither handler consults the current status, so the
same reschedule branch also moves a `cancelled` booking to `rescheduled`
(see the counterexample). -/
theorem update_status_writes (st : Store) (user_id booking_id : String)
    (data : UpdateData) :
    (∀ st2 b2, update_booking st booking_id data = (st2, Except.ok b2) →
      b2.status = "cancelled" ∨ b2.status = "rescheduled") ∧
    (∀ st2 b2,
      update_user_booking st user_id booking_id data = (st2, Except.ok b2) →
      b2.status = "cancelled" ∨ b2.status = "rescheduled") := by
  constructor
  · intro st2 b2 h
    unfold update_booking at h
    split at h
    · simp at h
    · exact updateBookingBody_ok_status st booking_id _ data st2 b2 h
  · intro st2 b2 h
    unfold update_user_booking at h
    split at h
    · simp at h
    · split at h
      · simp at h
      · exact updateBookingBody_ok_status st booking_id _ data st2 b2 h

theorem update_status_writes_witness :
    (Booking.status { exCancelled with status := "cancelled" } = "cancelled" ∨
      Booking.status { exCancelled with status := "cancelled" }
        = "rescheduled") :=
  (update_status_writes exStoreCancelled "u1" "b1" exCancelReq).1
    (setBooking exStoreCancelled "b1" { exCancelled with status := "cancelled" })
    { exCancelled with status := "cancelled" } rfl

/-- C1 counterexample: the store holds booking `b1` whose status is
`cancelled`; the admin reschedule request succeeds and the stored booking
moves to status `rescheduled`, refuting the claim that no lifecycle
operation moves a booking out of `cancelled`. -/
theorem cancelled_can_be_rescheduled :
    exCancelled.status = "cancelled" ∧
    (update_booking exStoreCancelled "b1" exReschedule).2 =
      Except.ok { exCancelled with time := "11:00", status := "rescheduled" } :=
  ⟨rfl, rfl⟩

theorem updateBookingBody_hour_out_of_range (st : Store) (id : String)
    (b : Booking) (data : UpdateData) (d t : String) (hour : Int)
    (hnc : data.status ≠ some "cancelled") (hd : data.date = some d)
    (ht : data.time = some t) (hp : parseHour t = some hour)
    (hr : hour < 10 ∨ hour > 23) :
    updateBookingBody st id b data =
      (st, Except.error (400,
        "Invalid time slot. Hours must be between 10 AM and 11 PM")) := by
  unfold updateBookingBody
  rw [if_neg hnc, hd, ht]
  simp only [hp]
  rw [if_pos hr]

/-- C5: with a booking present, a reschedule request (a request carrying
`date` and `time` and not the cancellation status) whose parsed hour is
below 10 or above 23 fails with the invalid-time-slot error — the spec's
`InvalidTimeFormat` — and leaves the store unchanged, for every store
state, i.e. regardless of any availability on the new date; the same holds
for the user-scoped handler when the caller owns the booking. -/
theorem reschedule_hour_out_of_range (st : Store)
    (user_id booking_id d t : String) (data : UpdateData) (hour : Int)
    (hnc : data.status ≠ some "cancelled") (hd : data.date = some d)
    (ht : data.time = some t) (hp : parseHour t = some hour)
    (hr : hour < 10 ∨ hour > 23) :
    (∀ b, st.bookings.lookup booking_id = some b →
      update_booking st booking_id data =
        (st, Except.error (400,
          "Invalid time slot. Hours must be between 10 AM and 11 PM"))) ∧
    (∀ b, st.bookings.lookup booking_id = some b → b.user_id = user_id →
      update_user_booking st user_id booking_id data =
        (st, Except.error (400,
          "Invalid time slot. Hours must be between 10 AM and 11 PM"))) := by
  constructor
  · intro b hb
    have hbody : update_booking st booking_id data
        = updateBookingBody st booking_id b data := by
      unfold update_booking
      rw [hb]
    rw [hbody]
    exact updateBookingBody_hour_out_of_range st booking_id b data d t hour
      hnc hd ht hp hr
  · intro b hb hown
    have hbody : update_user_booking st user_id booking_id data
        = updateBookingBody st booking_id b data := by
      unfold update_user_booking
      rw [hb]
      exact if_neg (fun hcon => hcon hown)
    rw [hbody]
    exact updateBookingBody_hour_out_of_range st booking_id b data d t hour
      hnc hd ht hp hr

theorem reschedule_hour_out_of_range_witness :
    update_booking exStoreConfirmed "b1" exRescheduleEarly =
      (exStoreConfirmed, Except.error (400,
        "Invalid time slot. Hours must be between 10 AM and 11 PM")) :=
  (reschedule_hour_out_of_range exStoreConfirmed "u1" "b1" "2025-06-02"
      "09:00" exRescheduleEarly 9 (by decide) rfl rfl rfl
      (Or.inl (by decide))).1 exConfirmed rfl

/-- C6: the public lookup fails 404 when no booking has the given id,
fails 403 (not 404) when the booking exists but its stored email differs,
and returns the booking when id and email both match. -/
theorem check_booking_spec (st : Store) (booking_id email : String)
    (hid : booking_id ≠ "") (hem : email ≠ "") :
    (st.bookings.lookup booking_id = none →
      check_booking st booking_id email =
        Except.error (404, "Booking not found")) ∧
    (∀ b, st.bookings.lookup booking_id = some b → b.email ≠ email →
      check_booking st booking_id email =
        Except.error (403, "Invalid credentials")) ∧
    (∀ b, st.bookings.lookup booking_id = some b → b.email = email →
      check_booking st booking_id email = Except.ok (booking_id, b)) := by
  have hne : ¬(booking_id = "" ∨ email = "") := by
    rintro (h | h)
    exacts [hid h, hem h]
  refine ⟨fun hnone => ?_, fun b hb hne2 => ?_, fun b hb heq => ?_⟩
  · unfold check_booking
    rw [if_neg hne, hnone]
  · unfold check_booking
    rw [if_neg hne, hb]
    exact if_pos hne2
  · unfold check_booking
    rw [if_neg hne, hb]
    exact if_neg (fun hcon => hcon heq)

theorem check_booking_spec_witness :
    check_booking exStoreConfirmed "b1" "ann@example.com" =
      Except.ok ("b1", exConfirmed) :=
  (check_booking_spec exStoreConfirmed "b1" "ann@example.com" (by decide)
      (by decide)).2.2 exConfirmed rfl rfl

theorem create_booking_fields (st : Store) (uid newId setup d t : String)
    (players dur : Int) :
    create_booking st uid
        { setup := some setup, players := some players, date := some d,
          time := some t, duration := some dur } newId =
      (if t ∈ get_available_time_slots st d then
        match calculate_price st.pricing setup dur players with
        | none => (st, Except.error (500, "KeyError"))
        | some price =>
          match st.users.lookup uid with
          | none =>
            (st, Except.error (500, "TypeError: NoneType is not subscriptable"))
          | some u =>
            ({ st with bookings := st.bookings ++
                [(newId, { user_id := uid, name := u.name, email := u.email,
                           phone := u.phone, setup := setup,
                           players := players, date := d, time := t,
                           duration := dur, price := price,
                           status := "confirmed" })] },
              Except.ok (newId,
                { user_id := uid, name := u.name, email := u.email,
                  phone := u.phone, setup := setup, players := players,
                  date := d, time := t, duration := dur, price := price,
                  status := "confirmed" }))
      else (st, Except.error (400, "Selected time slot is not available"))) :=
  rfl

/-- C7: a complete creation request whose time the resolver does not list
for its date fails with the slot-unavailable error and leaves the store
untouched; every failure path of creation leaves the store untouched; and
a successful creation returns status `confirmed`, the generated id, a
price that is exactly what the pricing calculator computes for the
persisted fields, and appends exactly one booking document under that
id. -/
theorem create_booking_spec :
    (∀ st uid newId setup d t (players dur : Int),
      t ∉ get_available_time_slots st d →
      create_booking st uid
          { setup := some setup, players := some players, date := some d,
            time := some t, duration := some dur } newId =
        (st, Except.error (400, "Selected time slot is not available"))) ∧
    (∀ st uid data newId e,
      (create_booking st uid data newId).2 = Except.error e →
      (create_booking st uid data newId).1 = st) ∧
    (∀ st uid data newId st2 bid b,
      create_booking st uid data newId = (st2, Except.ok (bid, b)) →
      b.status = "confirmed" ∧ bid = newId ∧
      calculate_price st.pricing b.setup b.duration b.players
        = some b.price ∧
      st2.bookings = st.bookings ++ [(newId, b)]) := by
  refine ⟨fun st uid newId setup d t players dur hna => ?_, ?_, ?_⟩
  · rw [create_booking_fields]
    exact if_neg hna
  · intro st uid data newId e h
    obtain ⟨os, op, od, ot, odur⟩ := data
    cases os with
    | none => rfl
    | some setup =>
    cases op with
    | none => rfl
    | some players =>
    cases od with
    | none => rfl
    | some d =>
    cases ot with
    | none => rfl
    | some t =>
    cases odur with
    | none => rfl
    | some dur =>
    rw [create_booking_fields] at h ⊢
    by_cases hav : t ∈ get_available_time_slots st d
    · rw [if_pos hav] at h ⊢
      cases hpr : calculate_price st.pricing setup dur players with
      | none => rfl
      | some price =>
        cases hus : st.users.lookup uid with
        | none => rfl
        | some u =>
          rw [hpr, hus] at h
          simp at h
    · rw [if_neg hav]
  · intro st uid data newId st2 bid b h
    obtain ⟨os, op, od, ot, odur⟩ := data
    cases os with
    | none =>
      have hc : (st, Except.error (400, "Missing required field: setup"))
          = (st2, Except.ok (bid, b)) := h
      simp at hc
    | some setup =>
    cases op with
    | none =>
      have hc : (st, Except.error (400, "Missing required field: players"))
          = (st2, Except.ok (bid, b)) := h
      simp at hc
    | some players =>
    cases od with
    | none =>
      have hc : (st, Except.error (400, "Missing required field: date"))
          = (st2, Except.ok (bid, b)) := h
      simp at hc
    | some d =>
    cases ot with
    | none =>
      have hc : (st, Except.error (400, "Missing required field: time"))
          = (st2, Except.ok (bid, b)) := h
      simp at hc
    | some t =>
    cases odur with
    | none =>
      have hc : (st, Except.error (400, "Missing required field: duration"))
          = (st2, Except.ok (bid, b)) := h
      simp at hc
    | some dur =>
    rw [create_booking_fields] at h
    by_cases hav : t ∈ get_available_time_slots st d
    · rw [if_pos hav] at h
      cases hpr : calculate_price st.pricing setup dur players with
      | none =>
        rw [hpr] at h
        simp at h
      | some price =>
        rw [hpr] at h
        cases hus : st.users.lookup uid with
        | none =>
          rw [hus] at h
          simp at h
        | some u =>
          rw [hus] at h
          injection h with h1 h2
          injection h2 with h3
          injection h3 with h4 h5
          refine ⟨?_, h4.symm, ?_, ?_⟩
          · rw [← h5]
          · rw [← h5]
            exact hpr
          · rw [← h1, ← h5]
    · rw [if_neg hav] at h
      simp at h

theorem create_booking_spec_witness :
    create_booking exStoreConfirmed "u1" exCreateBadTime "new1" =
      (exStoreConfirmed,
        Except.error (400, "Selected time slot is not available")) :=
  create_booking_spec.1 exStoreConfirmed "u1" "new1" "squad" "2025-06-01"
    "09:00" 3 2 (by decide)

end Squad
